import Mathlib

/-!
Verification of the Tom8to focus-tracker timer core.

This file embeds, as executable Lean definitions:

* the client-side timer state machine of
  `frontend/src/contexts/PomodoroContext.tsx` (shipped inside
  `src/frontend/src/components/Layout.tsx`): the Pomodoro work/break cycle
  machine, the stopwatch, their tick effects and their save handlers;
* the UI guards of `frontend/src/pages/Timer.tsx` (which buttons are
  rendered/enabled in which state), giving a small-step transition system
  for the whole timer page;
* the goal form of `frontend/src/pages/Goals.tsx`;
* the relational schema of `backend/db/init.sql` with its
  `ON DELETE CASCADE` foreign keys.

React semantics that the embedding is faithful to: inside one event/effect
execution every read of a `useState` variable sees the render snapshot, and
`setX` calls are applied afterwards, later writes of the same variable
winning.  This matters for `handlePomodoroComplete`, which calls
`setTotalWorkTime(totalWorkTime + workDuration*60)` and then invokes
`handlePomodoroSave` on the *same snapshot*; the save therefore reads the
pre-update `totalWorkTime`, and its reset (applied after the awaited store
call) overwrites the scheduled `setTotalWorkTime` on success, while on
failure the scheduled value lands.

JavaScript numbers are modelled as `Int` (all the operations involved here
are integer-valued on the reachable inputs).
-/

/-- State of the Pomodoro half of `PomodoroProvider` (one field per
`useState` hook; `workDuration`/`breakDuration`/`cycles` have TS type
`number | ''`, modelled as `Option Int` with `none` for `''`). -/
structure PomState where
  pomodoroRunning : Bool
  pomodoroSeconds : Int
  workDuration : Option Int
  breakDuration : Option Int
  cycles : Option Int
  currentCycle : Int
  isBreak : Bool
  totalWorkTime : Int
  pomodoroCategory : String
  pomodoroCustomCategory : String
  showPomodoroCustom : Bool
  pomodoroMessage : String
  pomodoroError : String
  deriving DecidableEq

/-- State of the stopwatch half of `PomodoroProvider`. -/
structure SwState where
  stopwatchRunning : Bool
  stopwatchSeconds : Int
  stopwatchCategory : String
  stopwatchCustomCategory : String
  showStopwatchCustom : Bool
  stopwatchMessage : String
  stopwatchError : String
  deriving DecidableEq

/-- `getWorkDuration`: `typeof workDuration === 'number' ? workDuration : 25`. -/
def getWorkDuration (p : PomState) : Int := p.workDuration.getD 25

/-- `getBreakDuration`: default 5. -/
def getBreakDuration (p : PomState) : Int := p.breakDuration.getD 5

/-- `getCycles`: default 4. -/
def getCycles (p : PomState) : Int := p.cycles.getD 4

/-- `String.padStart(2, '0')` on an already-rendered numeral. -/
def padStart2 (t : String) : String :=
  if t.length < 2 then String.mk (List.replicate (2 - t.length) '0') ++ t else t

/-- `formatTime` from the provider (hrs:mins:secs, each two digits).  The
JS source uses `Math.floor` and `%` on a `number`; every reachable call
site passes a nonnegative integer, on which this `Int.toNat`-based
rendering agrees with the JS arithmetic. -/
def formatTime (seconds : Int) : String :=
  let s := seconds.toNat
  padStart2 (toString (s / 3600)) ++ ":" ++
    padStart2 (toString ((s % 3600) / 60)) ++ ":" ++ padStart2 (toString (s % 60))

/-- `handlePomodoroReset`. -/
def handlePomodoroReset (p : PomState) : PomState :=
  { p with pomodoroRunning := false, pomodoroSeconds := 0, currentCycle := 1,
           isBreak := false, totalWorkTime := 0 }

/-- Result of a save handler: the post-handler component state plus the
argument passed to `focusSessionService.createSession` when that call was
made at all (`none` = the handler returned before reaching the store). -/
structure PomSaveOut where
  state : PomState
  storeCall : Option Int
  deriving DecidableEq

/-- `handlePomodoroSave`.  `userPresent` models `user` being non-null and
`ok` models whether the awaited `createSession` call succeeds or throws.
Note: there is no zero-duration check in this handler (unlike the
stopwatch one). -/
def handlePomodoroSave (userPresent ok : Bool) (p : PomState) : PomSaveOut :=
  let p1 := { p with pomodoroRunning := false }
  if !userPresent then ⟨p1, none⟩
  else
    let selectedCategory :=
      if p.showPomodoroCustom then p.pomodoroCustomCategory else p.pomodoroCategory
    if selectedCategory = "" then
      ⟨{ p1 with pomodoroError := "Please select or enter a category" }, none⟩
    else
      let currentWorkProgress : Int :=
        if p.isBreak then 0 else getWorkDuration p * 60 - p.pomodoroSeconds
      let finalWorkTime := p.totalWorkTime + currentWorkProgress
      if ok then
        ⟨{ handlePomodoroReset p1 with
            pomodoroMessage :=
              "Pomodoro complete! " ++ formatTime finalWorkTime ++ " in " ++
                selectedCategory },
          some finalWorkTime⟩
      else
        ⟨{ p1 with
            pomodoroError := "Failed to save focus session. Please try again." },
          some finalWorkTime⟩

/-- `handlePomodoroComplete`, including the React write-ordering on the
final work segment: `setTotalWorkTime(totalWorkTime + work*60)` is issued
before `handlePomodoroSave()` runs on the same snapshot, so the save reads
the stale `totalWorkTime`; its reset (on store success) later overwrites
the scheduled total with 0, while on any non-persisting outcome the
scheduled total lands. -/
def handlePomodoroComplete (userPresent ok : Bool) (p : PomState) : PomSaveOut :=
  if p.isBreak then
    if p.currentCycle < getCycles p then
      ⟨{ p with currentCycle := p.currentCycle + 1, isBreak := false,
                pomodoroSeconds := getWorkDuration p * 60 }, none⟩
    else handlePomodoroSave userPresent ok p
  else
    let newTotal := p.totalWorkTime + getWorkDuration p * 60
    if p.currentCycle < getCycles p then
      ⟨{ p with isBreak := true, pomodoroSeconds := getBreakDuration p * 60,
                totalWorkTime := newTotal }, none⟩
    else
      let out := handlePomodoroSave userPresent ok p
      if ok && out.storeCall.isSome then out
      else ⟨{ out.state with totalWorkTime := newTotal }, out.storeCall⟩

/-- Body of the interval callback: `setPomodoroSeconds(s => s <= 1 ? 0 : s - 1)`. -/
def pomodoroTickBody (s : Int) : Int := if s ≤ 1 then 0 else s - 1

/-- One firing of the Pomodoro interval. -/
def pomodoroTick (p : PomState) : PomState :=
  { p with pomodoroSeconds := pomodoroTickBody p.pomodoroSeconds }

/-- Condition under which the Pomodoro timer effect keeps an interval
installed (`pomodoroRunning && pomodoroSeconds > 0`); otherwise the
interval is cleared. -/
def pomodoroIntervalActive (p : PomState) : Bool :=
  p.pomodoroRunning && decide (0 < p.pomodoroSeconds)

/-- One scheduling step of the running Pomodoro: the interval fires (when
installed), and if the countdown has reached 0 the completion effect
(`pomodoroRunning && pomodoroSeconds === 0`) runs `handlePomodoroComplete`
before control returns to the event loop. -/
def pomodoroTickStep (userPresent ok : Bool) (p : PomState) : PomSaveOut :=
  if pomodoroIntervalActive p then
    let p1 := pomodoroTick p
    if p1.pomodoroRunning && decide (p1.pomodoroSeconds = 0) then
      handlePomodoroComplete userPresent ok p1
    else ⟨p1, none⟩
  else ⟨p, none⟩

/-- `handlePomodoroStart`. -/
def handlePomodoroStart (p : PomState) : PomState :=
  { p with pomodoroMessage := "", pomodoroError := "", pomodoroRunning := true,
           currentCycle := 1, isBreak := false, totalWorkTime := 0,
           pomodoroSeconds := getWorkDuration p * 60 }

/-- `handlePomodoroPause`. -/
def handlePomodoroPause (p : PomState) : PomState := { p with pomodoroRunning := false }

/-- `handlePomodoroResume`. -/
def handlePomodoroResume (p : PomState) : PomState := { p with pomodoroRunning := true }

/-- `handlePomodoroCategoryChange` (`cats` is the loaded category list). -/
def handlePomodoroCategoryChange (cats : List String) (value : String)
    (p : PomState) : PomState :=
  if value = "Custom" then
    { p with showPomodoroCustom := true, pomodoroCategory := cats.headD "" }
  else { p with showPomodoroCustom := false, pomodoroCategory := value }

/-- One firing of the stopwatch interval: `setStopwatchSeconds(s => s + 1)`. -/
def stopwatchTick (s : SwState) : SwState :=
  { s with stopwatchSeconds := s.stopwatchSeconds + 1 }

/-- Condition under which the stopwatch effect keeps an interval installed
(`stopwatchRunning`). -/
def stopwatchIntervalActive (s : SwState) : Bool := s.stopwatchRunning

/-- One scheduling step of the stopwatch. -/
def stopwatchTickStep (s : SwState) : SwState :=
  if stopwatchIntervalActive s then stopwatchTick s else s

/-- `handleStopwatchStart`. -/
def handleStopwatchStart (s : SwState) : SwState :=
  { s with stopwatchRunning := true, stopwatchMessage := "", stopwatchError := "" }

/-- `handleStopwatchPause`. -/
def handleStopwatchPause (s : SwState) : SwState := { s with stopwatchRunning := false }

/-- `handleStopwatchReset`. -/
def handleStopwatchReset (s : SwState) : SwState :=
  { s with stopwatchRunning := false, stopwatchSeconds := 0,
           stopwatchMessage := "", stopwatchError := "" }

/-- `handleStopwatchCategoryChange`. -/
def handleStopwatchCategoryChange (cats : List String) (value : String)
    (s : SwState) : SwState :=
  if value = "Custom" then
    { s with showStopwatchCustom := true, stopwatchCategory := cats.headD "" }
  else { s with showStopwatchCustom := false, stopwatchCategory := value }

/-- Result of the stopwatch save handler. -/
structure SwSaveOut where
  state : SwState
  storeCall : Option Int
  deriving DecidableEq

/-- `handleStopwatchSave` (this one does validate zero elapsed time). -/
def handleStopwatchSave (userPresent ok : Bool) (s : SwState) : SwSaveOut :=
  let s1 := { s with stopwatchRunning := false }
  if s.stopwatchSeconds = 0 then
    ⟨{ s1 with stopwatchError := "Timer must run for at least 1 second" }, none⟩
  else if !userPresent then ⟨s1, none⟩
  else
    let selectedCategory :=
      if s.showStopwatchCustom then s.stopwatchCustomCategory else s.stopwatchCategory
    if selectedCategory = "" then
      ⟨{ s1 with stopwatchError := "Please select or enter a category" }, none⟩
    else if ok then
      ⟨{ s1 with
          stopwatchMessage :=
            "Focus session saved! " ++ formatTime s.stopwatchSeconds ++ " in " ++
              selectedCategory,
          stopwatchSeconds := 0, stopwatchError := "" },
        some s.stopwatchSeconds⟩
    else
      ⟨{ s1 with
          stopwatchError := "Failed to save focus session. Please try again." },
        some s.stopwatchSeconds⟩

/-- Combined state of the timer page. -/
structure AppState where
  pom : PomState
  sw : SwState
  deriving DecidableEq

/-- Initial hook values of `PomodoroProvider`. -/
def initPomState : PomState where
  pomodoroRunning := false
  pomodoroSeconds := 0
  workDuration := some 25
  breakDuration := some 5
  cycles := some 4
  currentCycle := 1
  isBreak := false
  totalWorkTime := 0
  pomodoroCategory := ""
  pomodoroCustomCategory := ""
  showPomodoroCustom := false
  pomodoroMessage := ""
  pomodoroError := ""

/-- Initial stopwatch hook values. -/
def initSwState : SwState where
  stopwatchRunning := false
  stopwatchSeconds := 0
  stopwatchCategory := ""
  stopwatchCustomCategory := ""
  showStopwatchCustom := false
  stopwatchMessage := ""
  stopwatchError := ""

/-- Initial combined state. -/
def initAppState : AppState := ⟨initPomState, initSwState⟩

/-- Events of the timer page: user actions (buttons/inputs of `Timer.tsx`),
interval firings, and the completion effect.  `userPresent`/`ok`
parameters model the auth context and the store outcome at the moment a
save runs; `cats` is the category list loaded from the server. -/
inductive Ev where
  | pomStart
  | pomPause
  | pomResume
  | pomReset
  | pomSaveClick (userPresent ok : Bool)
  | pomTick
  | pomComplete (userPresent ok : Bool)
  | pomCategoryChange (cats : List String) (value : String)
  | pomSetCustomCategory (v : String)
  | setWork (v : Option Int)
  | setBreak (v : Option Int)
  | setCycles (v : Option Int)
  | swStart
  | swPause
  | swReset
  | swSaveClick (userPresent ok : Bool)
  | swTick
  | swCategoryChange (cats : List String) (value : String)
  | swSetCustomCategory (v : String)

/-- Whether an event can fire, from the rendering/disabled logic of
`Timer.tsx` (e.g. the Start Pomodoro button is rendered only when
`pomodoroSeconds === 0` and disabled while
`stopwatchRunning || stopwatchSeconds > 0`), the interval-installation
conditions, the completion-effect condition, and the duration `onChange`
handlers (which accept only `''` or a positive integer). -/
def enabled (s : AppState) : Ev → Bool
  | .pomStart =>
      decide (s.pom.pomodoroSeconds = 0) &&
        !(s.sw.stopwatchRunning || decide (0 < s.sw.stopwatchSeconds))
  | .pomPause => s.pom.pomodoroRunning && decide (0 < s.pom.pomodoroSeconds)
  | .pomResume => !s.pom.pomodoroRunning && decide (0 < s.pom.pomodoroSeconds)
  | .pomReset => decide (0 < s.pom.pomodoroSeconds)
  | .pomSaveClick _ _ => decide (0 < s.pom.pomodoroSeconds)
  | .pomTick => pomodoroIntervalActive s.pom
  | .pomComplete _ _ =>
      s.pom.pomodoroRunning && decide (s.pom.pomodoroSeconds = 0)
  | .pomCategoryChange _ _ =>
      !(s.pom.pomodoroRunning || decide (0 < s.pom.pomodoroSeconds))
  | .pomSetCustomCategory _ =>
      !(s.pom.pomodoroRunning || decide (0 < s.pom.pomodoroSeconds))
  | .setWork v =>
      (match v with | none => true | some k => decide (0 < k)) &&
        !(s.pom.pomodoroRunning || decide (0 < s.pom.pomodoroSeconds))
  | .setBreak v =>
      (match v with | none => true | some k => decide (0 < k)) &&
        !(s.pom.pomodoroRunning || decide (0 < s.pom.pomodoroSeconds))
  | .setCycles v =>
      (match v with | none => true | some k => decide (0 < k)) &&
        !(s.pom.pomodoroRunning || decide (0 < s.pom.pomodoroSeconds))
  | .swStart =>
      !s.sw.stopwatchRunning &&
        !(s.pom.pomodoroRunning || decide (0 < s.pom.pomodoroSeconds))
  | .swPause => s.sw.stopwatchRunning
  | .swReset => !s.sw.stopwatchRunning && decide (0 < s.sw.stopwatchSeconds)
  | .swSaveClick _ _ =>
      !s.sw.stopwatchRunning && decide (0 < s.sw.stopwatchSeconds)
  | .swTick => s.sw.stopwatchRunning
  | .swCategoryChange _ _ => !s.sw.stopwatchRunning
  | .swSetCustomCategory _ => !s.sw.stopwatchRunning

/-- Effect of an event on the page state. -/
def next (s : AppState) : Ev → AppState
  | .pomStart => { s with pom := handlePomodoroStart s.pom }
  | .pomPause => { s with pom := handlePomodoroPause s.pom }
  | .pomResume => { s with pom := handlePomodoroResume s.pom }
  | .pomReset => { s with pom := handlePomodoroReset s.pom }
  | .pomSaveClick u ok => { s with pom := (handlePomodoroSave u ok s.pom).state }
  | .pomTick => { s with pom := pomodoroTick s.pom }
  | .pomComplete u ok => { s with pom := (handlePomodoroComplete u ok s.pom).state }
  | .pomCategoryChange cats v =>
      { s with pom := handlePomodoroCategoryChange cats v s.pom }
  | .pomSetCustomCategory v =>
      { s with pom := { s.pom with pomodoroCustomCategory := v } }
  | .setWork v => { s with pom := { s.pom with workDuration := v } }
  | .setBreak v => { s with pom := { s.pom with breakDuration := v } }
  | .setCycles v => { s with pom := { s.pom with cycles := v } }
  | .swStart => { s with sw := handleStopwatchStart s.sw }
  | .swPause => { s with sw := handleStopwatchPause s.sw }
  | .swReset => { s with sw := handleStopwatchReset s.sw }
  | .swSaveClick u ok => { s with sw := (handleStopwatchSave u ok s.sw).state }
  | .swTick => { s with sw := stopwatchTick s.sw }
  | .swCategoryChange cats v =>
      { s with sw := handleStopwatchCategoryChange cats v s.sw }
  | .swSetCustomCategory v =>
      { s with sw := { s.sw with stopwatchCustomCategory := v } }

/-- States reachable from the initial page state through enabled events. -/
inductive Reachable : AppState → Prop where
  | init : Reachable initAppState
  | step (s : AppState) (e : Ev) :
      Reachable s → enabled s e = true → Reachable (next s e)

/-- The "timer is active" notion the `Timer.tsx` guards use for the
Pomodoro (`pomodoroRunning || pomodoroSeconds > 0`). -/
def pomActive (p : PomState) : Bool :=
  p.pomodoroRunning || decide (0 < p.pomodoroSeconds)

/-- The "timer is active" notion the guards use for the stopwatch. -/
def swActive (s : SwState) : Bool :=
  s.stopwatchRunning || decide (0 < s.stopwatchSeconds)

/-- The duration settings only ever hold `''` or a positive number
(enforced by the `onChange` handlers). -/
def configOk (p : PomState) : Prop :=
  (∀ v, p.workDuration = some v → 0 < v) ∧
    (∀ v, p.breakDuration = some v → 0 < v) ∧
    (∀ v, p.cycles = some v → 0 < v)

/-- Inductive invariant of the timer page. -/
def TimerInv (s : AppState) : Prop :=
  configOk s.pom ∧ 0 ≤ s.pom.pomodoroSeconds ∧ 0 ≤ s.sw.stopwatchSeconds ∧
    ¬(swActive s.sw = true ∧ pomActive s.pom = true)

/-- Outcome of the goal form submission (`Goals.tsx`, `handleSubmit`):
the `setError` message, if any, and the payload handed to
`focusGoalService.createGoal` when that call was made. -/
structure GoalSubmitOut where
  error : Option String
  storeCall : Option (String × Int)
  deriving DecidableEq

/-- `handleSubmit` of `Goals.tsx`.  `h`/`m` are the results of
`parseInt(goalHours) || 0` and `parseInt(goalMinutes) || 0` (so an empty
or unparsable field arrives here as 0); `ok` models the store outcome. -/
def goalsHandleSubmit (userPresent : Bool) (category : String) (h m : Int)
    (ok : Bool) : GoalSubmitOut :=
  if !userPresent then ⟨none, none⟩
  else if h < 0 ∨ 168 < h then ⟨some "Hours must be between 0 and 168", none⟩
  else if m < 0 ∨ 59 < m then ⟨some "Minutes must be between 0 and 59", none⟩
  else if h = 0 ∧ m = 0 then ⟨some "Please enter a goal greater than 0", none⟩
  else
    let totalSeconds := h * 3600 + m * 60
    if 604800 < totalSeconds then
      ⟨some "Goal cannot exceed 168 hours per week", none⟩
    else if ok then ⟨none, some (category, totalSeconds)⟩
    else ⟨some "Failed to set goal. Please try again.", some (category, totalSeconds)⟩

/-- A `focus_information` row of `backend/db/init.sql` (timestamps kept
abstract as `Nat`). -/
structure SessionRow where
  email : String
  time : Nat
  focus_time_seconds : Int
  category : String
  deriving DecidableEq

/-- A `focus_goal_information` row. -/
structure GoalRow where
  email : String
  category : String
  goal_time_per_week_seconds : Int
  deriving DecidableEq

/-- A `category_information` row. -/
structure CategoryRow where
  email : String
  category : String
  deriving DecidableEq

/-- The four user-data tables of `backend/db/init.sql` (the short-lived
verification/reset tables carry no foreign key and are irrelevant here). -/
structure Db where
  user_information : List String
  focus_information : List SessionRow
  focus_goal_information : List GoalRow
  category_information : List CategoryRow
  deriving DecidableEq

/-- `DELETE FROM user_information WHERE email = e` under the
`FOREIGN KEY (email) REFERENCES user_information(email) ON DELETE CASCADE`
declarations of `init.sql`: deleting a user row also deletes every
dependent row whose `email` column references it, and nothing else. -/
def deleteUserCascade (e : String) (db : Db) : Db where
  user_information := db.user_information.filter (fun u => decide (u ≠ e))
  focus_information := db.focus_information.filter (fun r => decide (r.email ≠ e))
  focus_goal_information :=
    db.focus_goal_information.filter (fun r => decide (r.email ≠ e))
  category_information :=
    db.category_information.filter (fun r => decide (r.email ≠ e))

/-- Provider state with a category selected (as `loadCategories` does on
login) and the default settings (`25` minutes work, `5` break, `4` cycles). -/
def pomWork : PomState := { initPomState with pomodoroCategory := "Work" }

/-- A stopwatch that has run for one second with a category selected. -/
def swOne : SwState :=
  { initSwState with stopwatchSeconds := 1, stopwatchCategory := "Work" }

/-- Scenario start state: `workDuration=25min, breakDuration=5min, cycles=2`,
category selected. -/
def c3p0 : PomState := { pomWork with cycles := some 2 }

/-- After starting and letting the first work segment count down to 0. -/
def c3run1 : PomState := pomodoroTick^[1500] (handlePomodoroStart c3p0)

/-- After the first work segment completes (switch to break). -/
def c3afterWork1 : PomState := (handlePomodoroComplete true true c3run1).state

/-- After the break counts down to 0. -/
def c3run2 : PomState := pomodoroTick^[300] c3afterWork1

/-- After the break completes (switch to the second work segment). -/
def c3afterBreak : PomState := (handlePomodoroComplete true true c3run2).state

/-- After the second work segment counts down to 0 (the moment the final
completion fires). -/
def c3run3 : PomState := pomodoroTick^[1500] c3afterBreak

lemma pomodoroTickBody_of_pos {s : Int} (h : 1 ≤ s) : pomodoroTickBody s = s - 1 := by
  unfold pomodoroTickBody
  split <;> omega

lemma pomodoroTick_of_pos {p : PomState} (h : 1 ≤ p.pomodoroSeconds) :
    pomodoroTick p = { p with pomodoroSeconds := p.pomodoroSeconds - 1 } := by
  unfold pomodoroTick
  rw [pomodoroTickBody_of_pos h]

lemma pomodoroTick_iterate (n : ℕ) (p : PomState)
    (h : (n : Int) ≤ p.pomodoroSeconds) :
    pomodoroTick^[n] p = { p with pomodoroSeconds := p.pomodoroSeconds - (n : Int) } := by
  induction n generalizing p with
  | zero => simp
  | succ k ih =>
    have h1 : 1 ≤ p.pomodoroSeconds := by
      have := h
      push_cast at this
      omega
    rw [Function.iterate_succ_apply, pomodoroTick_of_pos h1, ih]
    · show ({ p with pomodoroSeconds := p.pomodoroSeconds - 1 - (k : Int) } : PomState) = _
      have : p.pomodoroSeconds - 1 - (k : Int) = p.pomodoroSeconds - ((k + 1 : ℕ) : Int) := by
        push_cast
        ring
      rw [this]
    · show (k : Int) ≤ p.pomodoroSeconds - 1
      push_cast at h
      omega

lemma handlePomodoroSave_fields (u ok : Bool) (p : PomState) :
    (handlePomodoroSave u ok p).state.pomodoroRunning = false ∧
      ((handlePomodoroSave u ok p).state.pomodoroSeconds = p.pomodoroSeconds ∨
        (handlePomodoroSave u ok p).state.pomodoroSeconds = 0) ∧
      (handlePomodoroSave u ok p).state.workDuration = p.workDuration ∧
      (handlePomodoroSave u ok p).state.breakDuration = p.breakDuration ∧
      (handlePomodoroSave u ok p).state.cycles = p.cycles := by
  simp only [handlePomodoroSave, handlePomodoroReset]
  split_ifs <;> simp

lemma handlePomodoroComplete_fields (u ok : Bool) (p : PomState) :
    ((handlePomodoroComplete u ok p).state.pomodoroSeconds = getWorkDuration p * 60 ∨
      (handlePomodoroComplete u ok p).state.pomodoroSeconds = getBreakDuration p * 60 ∨
      (handlePomodoroComplete u ok p).state.pomodoroSeconds = p.pomodoroSeconds ∨
      (handlePomodoroComplete u ok p).state.pomodoroSeconds = 0) ∧
      (handlePomodoroComplete u ok p).state.workDuration = p.workDuration ∧
      (handlePomodoroComplete u ok p).state.breakDuration = p.breakDuration ∧
      (handlePomodoroComplete u ok p).state.cycles = p.cycles := by
  obtain ⟨hr, hsec, hw, hb, hc⟩ := handlePomodoroSave_fields u ok p
  simp only [handlePomodoroComplete]
  split
  · split
    · simp
    · exact ⟨Or.inr (Or.inr hsec), hw, hb, hc⟩
  · split
    · simp
    · split
      · exact ⟨Or.inr (Or.inr hsec), hw, hb, hc⟩
      · exact ⟨Or.inr (Or.inr hsec), hw, hb, hc⟩

lemma handleStopwatchSave_fields (u ok : Bool) (s : SwState) :
    (handleStopwatchSave u ok s).state.stopwatchRunning = false ∧
      ((handleStopwatchSave u ok s).state.stopwatchSeconds = s.stopwatchSeconds ∨
        (handleStopwatchSave u ok s).state.stopwatchSeconds = 0) := by
  simp only [handleStopwatchSave]
  split_ifs <;> simp

lemma configOk_pos {p : PomState} (h : configOk p) :
    0 < getWorkDuration p ∧ 0 < getBreakDuration p ∧ 0 < getCycles p := by
  obtain ⟨h1, h2, h3⟩ := h
  refine ⟨?_, ?_, ?_⟩
  · unfold getWorkDuration
    cases hw : p.workDuration with
    | none => simp
    | some v => simpa using h1 v hw
  · unfold getBreakDuration
    cases hw : p.breakDuration with
    | none => simp
    | some v => simpa using h2 v hw
  · unfold getCycles
    cases hw : p.cycles with
    | none => simp
    | some v => simpa using h3 v hw

lemma pomodoroTickBody_nonneg (s : Int) : 0 ≤ pomodoroTickBody s := by
  unfold pomodoroTickBody
  split <;> omega

lemma mux_of_sw_false {a b : Bool} (h : a = false) : ¬(a = true ∧ b = true) := by
  simp [h]

lemma mux_of_pom_false {a b : Bool} (h : b = false) : ¬(a = true ∧ b = true) := by
  simp [h]

lemma sw_false_of_mux {s : AppState}
    (hmux : ¬(swActive s.sw = true ∧ pomActive s.pom = true))
    (h : pomActive s.pom = true) : swActive s.sw = false := by
  cases hb : swActive s.sw
  · rfl
  · exact absurd ⟨hb, h⟩ hmux

lemma pom_false_of_mux {s : AppState}
    (hmux : ¬(swActive s.sw = true ∧ pomActive s.pom = true))
    (h : swActive s.sw = true) : pomActive s.pom = false := by
  cases hb : pomActive s.pom
  · rfl
  · exact absurd ⟨h, hb⟩ hmux

lemma pomActive_of_running {p : PomState} (h : p.pomodoroRunning = true) :
    pomActive p = true := by
  simp [pomActive, h]

lemma pomActive_of_pos {p : PomState} (h : 0 < p.pomodoroSeconds) :
    pomActive p = true := by
  simp [pomActive, h]

lemma swActive_of_running {s : SwState} (h : s.stopwatchRunning = true) :
    swActive s = true := by
  simp [swActive, h]

lemma swActive_of_pos {s : SwState} (h : 0 < s.stopwatchSeconds) :
    swActive s = true := by
  simp [swActive, h]

lemma timerInv_init : TimerInv initAppState := by
  refine ⟨⟨?_, ?_, ?_⟩, ?_, ?_, ?_⟩
  · intro v hv
    simp [initAppState, initPomState] at hv
    omega
  · intro v hv
    simp [initAppState, initPomState] at hv
    omega
  · intro v hv
    simp [initAppState, initPomState] at hv
    omega
  · simp [initAppState, initPomState]
  · simp [initAppState, initSwState]
  · simp [initAppState, initPomState, initSwState, swActive, pomActive]


lemma timerInv_step {s : AppState} (e : Ev) (hinv : TimerInv s)
    (he : enabled s e = true) : TimerInv (next s e) := by
  obtain ⟨hcfg, hp, hs, hmux⟩ := hinv
  cases e with
  | pomStart =>
    simp only [next]
    have hsw : swActive s.sw = false := by
      simp only [enabled, Bool.and_eq_true, Bool.not_eq_true'] at he
      exact he.2
    refine ⟨hcfg, ?_, hs, mux_of_sw_false hsw⟩
    have hw := (configOk_pos hcfg).1
    show 0 ≤ getWorkDuration s.pom * 60
    omega
  | pomPause =>
    simp only [next]
    simp only [enabled, Bool.and_eq_true, decide_eq_true_eq] at he
    have hsw : swActive s.sw = false :=
      sw_false_of_mux hmux (pomActive_of_running he.1)
    exact ⟨hcfg, hp, hs, mux_of_sw_false hsw⟩
  | pomResume =>
    simp only [next]
    simp only [enabled, Bool.and_eq_true, Bool.not_eq_true', decide_eq_true_eq] at he
    have hsw : swActive s.sw = false :=
      sw_false_of_mux hmux (pomActive_of_pos he.2)
    exact ⟨hcfg, hp, hs, mux_of_sw_false hsw⟩
  | pomReset =>
    simp only [next]
    refine ⟨hcfg, le_refl 0, hs, mux_of_pom_false ?_⟩
    simp [pomActive, handlePomodoroReset]
  | pomSaveClick u ok =>
    simp only [next]
    simp only [enabled, decide_eq_true_eq] at he
    have hsw : swActive s.sw = false :=
      sw_false_of_mux hmux (pomActive_of_pos he)
    obtain ⟨_, hsec, hw, hb, hc⟩ := handlePomodoroSave_fields u ok s.pom
    refine ⟨⟨?_, ?_, ?_⟩, ?_, hs, mux_of_sw_false hsw⟩
    · intro v hv
      exact hcfg.1 v (hw ▸ hv)
    · intro v hv
      exact hcfg.2.1 v (hb ▸ hv)
    · intro v hv
      exact hcfg.2.2 v (hc ▸ hv)
    · show 0 ≤ (handlePomodoroSave u ok s.pom).state.pomodoroSeconds
      rcases hsec with h1 | h1 <;> rw [h1] <;> omega
  | pomTick =>
    simp only [next]
    simp only [enabled, pomodoroIntervalActive, Bool.and_eq_true,
      decide_eq_true_eq] at he
    have hsw : swActive s.sw = false :=
      sw_false_of_mux hmux (pomActive_of_running he.1)
    exact ⟨hcfg, pomodoroTickBody_nonneg _, hs, mux_of_sw_false hsw⟩
  | pomComplete u ok =>
    simp only [next]
    simp only [enabled, Bool.and_eq_true, decide_eq_true_eq] at he
    have hsw : swActive s.sw = false :=
      sw_false_of_mux hmux (pomActive_of_running he.1)
    obtain ⟨hsec, hw, hb, hc⟩ := handlePomodoroComplete_fields u ok s.pom
    obtain ⟨hwp, hbp, _⟩ := configOk_pos hcfg
    refine ⟨⟨?_, ?_, ?_⟩, ?_, hs, mux_of_sw_false hsw⟩
    · intro v hv
      exact hcfg.1 v (hw ▸ hv)
    · intro v hv
      exact hcfg.2.1 v (hb ▸ hv)
    · intro v hv
      exact hcfg.2.2 v (hc ▸ hv)
    · show 0 ≤ (handlePomodoroComplete u ok s.pom).state.pomodoroSeconds
      rcases hsec with h1 | h1 | h1 | h1 <;> rw [h1] <;> omega
  | pomCategoryChange cats v =>
    simp only [next, handlePomodoroCategoryChange]
    split
    · exact ⟨hcfg, hp, hs, hmux⟩
    · exact ⟨hcfg, hp, hs, hmux⟩
  | pomSetCustomCategory v =>
    simp only [next]
    exact ⟨hcfg, hp, hs, hmux⟩
  | setWork v =>
    simp only [next]
    simp only [enabled, Bool.and_eq_true] at he
    refine ⟨⟨?_, hcfg.2.1, hcfg.2.2⟩, hp, hs, hmux⟩
    intro k hk
    cases v with
    | none => simp at hk
    | some k0 =>
      simp only [decide_eq_true_eq] at he
      have hkk : k0 = k := by
        injection hk
      have := he.1
      omega
  | setBreak v =>
    simp only [next]
    simp only [enabled, Bool.and_eq_true] at he
    refine ⟨⟨hcfg.1, ?_, hcfg.2.2⟩, hp, hs, hmux⟩
    intro k hk
    cases v with
    | none => simp at hk
    | some k0 =>
      simp only [decide_eq_true_eq] at he
      have hkk : k0 = k := by
        injection hk
      have := he.1
      omega
  | setCycles v =>
    simp only [next]
    simp only [enabled, Bool.and_eq_true] at he
    refine ⟨⟨hcfg.1, hcfg.2.1, ?_⟩, hp, hs, hmux⟩
    intro k hk
    cases v with
    | none => simp at hk
    | some k0 =>
      simp only [decide_eq_true_eq] at he
      have hkk : k0 = k := by
        injection hk
      have := he.1
      omega
  | swStart =>
    simp only [next]
    have hpom : pomActive s.pom = false := by
      simp only [enabled, Bool.and_eq_true, Bool.not_eq_true'] at he
      exact he.2
    exact ⟨hcfg, hp, hs, mux_of_pom_false hpom⟩
  | swPause =>
    simp only [next]
    simp only [enabled] at he
    have hpom : pomActive s.pom = false :=
      pom_false_of_mux hmux (swActive_of_running he)
    exact ⟨hcfg, hp, hs, mux_of_pom_false hpom⟩
  | swReset =>
    simp only [next]
    refine ⟨hcfg, hp, le_refl 0, mux_of_sw_false ?_⟩
    simp [swActive, handleStopwatchReset]
  | swSaveClick u ok =>
    simp only [next]
    simp only [enabled, Bool.and_eq_true, Bool.not_eq_true', decide_eq_true_eq] at he
    have hpom : pomActive s.pom = false :=
      pom_false_of_mux hmux (swActive_of_pos he.2)
    obtain ⟨_, hsec⟩ := handleStopwatchSave_fields u ok s.sw
    refine ⟨hcfg, hp, ?_, mux_of_pom_false hpom⟩
    show 0 ≤ (handleStopwatchSave u ok s.sw).state.stopwatchSeconds
    rcases hsec with h1 | h1 <;> rw [h1] <;> omega
  | swTick =>
    simp only [next]
    simp only [enabled] at he
    have hpom : pomActive s.pom = false :=
      pom_false_of_mux hmux (swActive_of_running he)
    refine ⟨hcfg, hp, ?_, mux_of_pom_false hpom⟩
    show 0 ≤ s.sw.stopwatchSeconds + 1
    omega
  | swCategoryChange cats v =>
    simp only [next, handleStopwatchCategoryChange]
    split
    · exact ⟨hcfg, hp, hs, hmux⟩
    · exact ⟨hcfg, hp, hs, hmux⟩
  | swSetCustomCategory v =>
    simp only [next]
    exact ⟨hcfg, hp, hs, hmux⟩

lemma timerInv_reachable {s : AppState} (h : Reachable s) : TimerInv s := by
  induction h with
  | init => exact timerInv_init
  | step s e hr he ih => exact timerInv_step e ih he

lemma reachable_pom_ticks (n : ℕ) (s : AppState) (h : Reachable s)
    (hrun : s.pom.pomodoroRunning = true)
    (hn : (n : Int) ≤ s.pom.pomodoroSeconds) :
    Reachable { s with pom := pomodoroTick^[n] s.pom } := by
  induction n generalizing s with
  | zero =>
    simpa using h
  | succ k ih =>
    have h1 : 1 ≤ s.pom.pomodoroSeconds := by
      push_cast at hn
      omega
    have he : enabled s Ev.pomTick = true := by
      simp only [enabled, pomodoroIntervalActive, Bool.and_eq_true,
        decide_eq_true_eq]
      exact ⟨hrun, by omega⟩
    have hstep : Reachable { s with pom := pomodoroTick s.pom } :=
      Reachable.step s Ev.pomTick h he
    have hr2 : ({ s with pom := pomodoroTick s.pom } : AppState).pom.pomodoroRunning = true := hrun
    have hn2 : ((k : ℕ) : Int) ≤
        ({ s with pom := pomodoroTick s.pom } : AppState).pom.pomodoroSeconds := by
      show (k : Int) ≤ (pomodoroTick s.pom).pomodoroSeconds
      rw [pomodoroTick_of_pos h1]
      push_cast at hn ⊢
      show (k : Int) ≤ s.pom.pomodoroSeconds - 1
      omega
    have := ih _ hstep hr2 hn2
    rwa [show pomodoroTick^[k] (pomodoroTick s.pom) = pomodoroTick^[k + 1] s.pom from
      (Function.iterate_succ_apply pomodoroTick k s.pom).symm] at this

lemma c3run1_eq : c3run1 =
    { pomodoroRunning := true, pomodoroSeconds := 0, workDuration := some 25,
      breakDuration := some 5, cycles := some 2, currentCycle := 1,
      isBreak := false, totalWorkTime := 0, pomodoroCategory := "Work",
      pomodoroCustomCategory := "", showPomodoroCustom := false,
      pomodoroMessage := "", pomodoroError := "" } := by
  unfold c3run1
  rw [pomodoroTick_iterate 1500 _ (by decide)]
  decide

lemma c3afterWork1_eq : c3afterWork1 =
    { pomodoroRunning := true, pomodoroSeconds := 300, workDuration := some 25,
      breakDuration := some 5, cycles := some 2, currentCycle := 1,
      isBreak := true, totalWorkTime := 1500, pomodoroCategory := "Work",
      pomodoroCustomCategory := "", showPomodoroCustom := false,
      pomodoroMessage := "", pomodoroError := "" } := by
  unfold c3afterWork1
  rw [c3run1_eq]
  decide

lemma c3run2_eq : c3run2 =
    { pomodoroRunning := true, pomodoroSeconds := 0, workDuration := some 25,
      breakDuration := some 5, cycles := some 2, currentCycle := 1,
      isBreak := true, totalWorkTime := 1500, pomodoroCategory := "Work",
      pomodoroCustomCategory := "", showPomodoroCustom := false,
      pomodoroMessage := "", pomodoroError := "" } := by
  unfold c3run2
  rw [c3afterWork1_eq, pomodoroTick_iterate 300 _ (by decide)]
  decide

lemma c3afterBreak_eq : c3afterBreak =
    { pomodoroRunning := true, pomodoroSeconds := 1500, workDuration := some 25,
      breakDuration := some 5, cycles := some 2, currentCycle := 2,
      isBreak := false, totalWorkTime := 1500, pomodoroCategory := "Work",
      pomodoroCustomCategory := "", showPomodoroCustom := false,
      pomodoroMessage := "", pomodoroError := "" } := by
  unfold c3afterBreak
  rw [c3run2_eq]
  decide

lemma c3run3_eq : c3run3 =
    { pomodoroRunning := true, pomodoroSeconds := 0, workDuration := some 25,
      breakDuration := some 5, cycles := some 2, currentCycle := 2,
      isBreak := false, totalWorkTime := 1500, pomodoroCategory := "Work",
      pomodoroCustomCategory := "", showPomodoroCustom := false,
      pomodoroMessage := "", pomodoroError := "" } := by
  unfold c3run3
  rw [c3afterBreak_eq, pomodoroTick_iterate 1500 _ (by decide)]
  decide

/-- C1: every Pomodoro save (the single save handler serves both the manual
Save and Quit button and the automatic save at run completion) passes to
`createSession` exactly `totalWorkTime` plus, when a work segment is in
progress (`isBreak = false`), `workDuration*60 - pomodoroSeconds`, and
never any break time; in particular, saving after 600 seconds of the first
work segment of a 25-minute run (countdown at 900 of 1500,
`totalWorkTime = 0`) persists exactly 600 seconds. -/
theorem pomodoro_save_contract (p : PomState) (ok : Bool)
    (hcat : (if p.showPomodoroCustom then p.pomodoroCustomCategory
              else p.pomodoroCategory) ≠ "") :
    (handlePomodoroSave true ok p).storeCall =
      some (p.totalWorkTime +
        (if p.isBreak then 0 else getWorkDuration p * 60 - p.pomodoroSeconds)) ∧
    (handlePomodoroSave true true
        (pomodoroTick^[600] (handlePomodoroStart pomWork))).storeCall = some 600 := by
  constructor
  · have huser : ¬((!(true : Bool)) = true) := by simp
    simp only [handlePomodoroSave]
    rw [if_neg huser, if_neg hcat]
    cases ok <;> simp
  · rw [pomodoroTick_iterate 600 _ (by decide)]
    decide

theorem pomodoro_save_contract_witness :
    (if pomWork.showPomodoroCustom then pomWork.pomodoroCustomCategory
      else pomWork.pomodoroCategory) ≠ "" ∧
    ((handlePomodoroSave true true pomWork).storeCall =
      some (pomWork.totalWorkTime +
        (if pomWork.isBreak then 0
          else getWorkDuration pomWork * 60 - pomWork.pomodoroSeconds)) ∧
    (handlePomodoroSave true true
        (pomodoroTick^[600] (handlePomodoroStart pomWork))).storeCall = some 600) :=
  ⟨by decide, pomodoro_save_contract pomWork true (by decide)⟩

/-- C2: when the countdown reaches zero in a work segment, `workDuration*60`
is added to `totalWorkTime` and the machine switches to a break
(`breakDuration*60`) when `currentCycle < cycles`, otherwise it triggers
save-and-reset; when it reaches zero in a break segment, the machine
increments `currentCycle` and switches back to work (`workDuration*60`)
when `currentCycle < cycles`, otherwise it triggers save-and-reset. -/
theorem pomodoro_complete_transitions (p : PomState) :
    (∀ u ok : Bool, p.isBreak = false → p.currentCycle < getCycles p →
      handlePomodoroComplete u ok p =
        ⟨{ p with isBreak := true, pomodoroSeconds := getBreakDuration p * 60,
                  totalWorkTime := p.totalWorkTime + getWorkDuration p * 60 },
          none⟩) ∧
    (∀ u ok : Bool, p.isBreak = true → p.currentCycle < getCycles p →
      handlePomodoroComplete u ok p =
        ⟨{ p with currentCycle := p.currentCycle + 1, isBreak := false,
                  pomodoroSeconds := getWorkDuration p * 60 }, none⟩) ∧
    (p.isBreak = false → ¬p.currentCycle < getCycles p → p.pomodoroSeconds = 0 →
      (if p.showPomodoroCustom then p.pomodoroCustomCategory
        else p.pomodoroCategory) ≠ "" →
      (handlePomodoroComplete true true p).storeCall =
          some (p.totalWorkTime + getWorkDuration p * 60) ∧
        (handlePomodoroComplete true true p).state =
          { handlePomodoroReset p with
              pomodoroMessage :=
                "Pomodoro complete! " ++
                  formatTime (p.totalWorkTime + getWorkDuration p * 60) ++
                  " in " ++
                  (if p.showPomodoroCustom then p.pomodoroCustomCategory
                    else p.pomodoroCategory) }) ∧
    (p.isBreak = true → ¬p.currentCycle < getCycles p →
      (if p.showPomodoroCustom then p.pomodoroCustomCategory
        else p.pomodoroCategory) ≠ "" →
      (handlePomodoroComplete true true p).storeCall = some p.totalWorkTime ∧
        (handlePomodoroComplete true true p).state =
          { handlePomodoroReset p with
              pomodoroMessage :=
                "Pomodoro complete! " ++ formatTime p.totalWorkTime ++ " in " ++
                  (if p.showPomodoroCustom then p.pomodoroCustomCategory
                    else p.pomodoroCategory) }) := by
  refine ⟨?_, ?_, ?_, ?_⟩
  · intro u ok hb hc
    simp [handlePomodoroComplete, hb, hc]
  · intro u ok hb hc
    simp [handlePomodoroComplete, hb, hc]
  · intro hb hc hs0 hcat
    simp [handlePomodoroComplete, handlePomodoroSave, handlePomodoroReset,
      hb, hc, hs0, hcat]
  · intro hb hc hcat
    simp [handlePomodoroComplete, handlePomodoroSave, handlePomodoroReset,
      hb, hc, hcat]

theorem pomodoro_complete_transitions_witness :
    pomWork.isBreak = false ∧ pomWork.currentCycle < getCycles pomWork ∧
      handlePomodoroComplete true true pomWork =
        ⟨{ pomWork with
            isBreak := true,
            pomodoroSeconds := getBreakDuration pomWork * 60,
            totalWorkTime := pomWork.totalWorkTime + getWorkDuration pomWork * 60 },
          none⟩ :=
  ⟨by decide, by decide,
    (pomodoro_complete_transitions pomWork).1 true true (by decide) (by decide)⟩

/-- C3: a `workDuration=25min, breakDuration=5min, cycles=2` run driven by
ticks to natural completion accumulates 3000 seconds of work at the moment
the second work segment's countdown reaches zero (visible as the
`totalWorkTime` the completion records: 1500 from the snapshot plus the
final segment), and the automatically triggered save passes exactly 3000
seconds — two full work segments, no break time — to `createSession`. -/
theorem pomodoro_two_cycle_run :
    (handlePomodoroComplete true true c3run3).storeCall = some 3000 ∧
      (handlePomodoroComplete true false c3run3).state.totalWorkTime = 3000 ∧
      c3run3.totalWorkTime = 1500 ∧ c3run3.isBreak = false ∧
      c3run3.currentCycle = 2 := by
  rw [c3run3_eq]
  refine ⟨by decide, by decide, by decide, by decide, by decide⟩

/-- C4 counterexample: at a freshly started Pomodoro (category selected,
`totalWorkTime = 0`, countdown still at `workDuration*60`, so zero work
seconds have accumulated) the save handler sets no validation error and
passes `0` to the store's `createSession` — the Pomodoro half of the
claim fails on the code. -/
theorem pomodoro_zero_save_counterexample :
    (handlePomodoroStart pomWork).totalWorkTime = 0 ∧
      (handlePomodoroStart pomWork).isBreak = false ∧
      getWorkDuration (handlePomodoroStart pomWork) * 60 -
        (handlePomodoroStart pomWork).pomodoroSeconds = 0 ∧
      (handlePomodoroSave true true (handlePomodoroStart pomWork)).storeCall =
        some 0 ∧
      (handlePomodoroSave true true (handlePomodoroStart pomWork)).state.pomodoroError =
        "" := by
  decide

/-- C4 (amended): only the stopwatch save validates zero accumulated time —
`handleStopwatchSave` with `stopwatchSeconds = 0` fails with the
validation error "Timer must run for at least 1 second" and never calls
`createSession`; the Pomodoro save performs no such check and calls
`createSession` even when the computed work time is `0`. -/
theorem zero_second_save_validation :
    (∀ (s : SwState) (u ok : Bool), s.stopwatchSeconds = 0 →
      (handleStopwatchSave u ok s).storeCall = none ∧
        (handleStopwatchSave u ok s).state.stopwatchError =
          "Timer must run for at least 1 second") ∧
    (∀ (p : PomState) (ok : Bool), p.totalWorkTime = 0 → p.isBreak = false →
      p.pomodoroSeconds = getWorkDuration p * 60 →
      (if p.showPomodoroCustom then p.pomodoroCustomCategory
        else p.pomodoroCategory) ≠ "" →
      (handlePomodoroSave true ok p).storeCall = some 0) := by
  constructor
  · intro s u ok h0
    simp [handleStopwatchSave, h0]
  · intro p ok h0 hb hsec hcat
    have huser : ¬((!(true : Bool)) = true) := by simp
    simp only [handlePomodoroSave]
    rw [if_neg huser, if_neg hcat]
    cases ok <;> simp [h0, hb, hsec]

theorem zero_second_save_validation_witness :
    initSwState.stopwatchSeconds = 0 ∧
      (handleStopwatchSave true true initSwState).storeCall = none ∧
      (handleStopwatchSave true true initSwState).state.stopwatchError =
        "Timer must run for at least 1 second" ∧
      (handlePomodoroSave true true (handlePomodoroStart pomWork)).storeCall =
        some 0 :=
  ⟨by decide,
    (zero_second_save_validation.1 initSwState true true (by decide)).1,
    (zero_second_save_validation.1 initSwState true true (by decide)).2,
    zero_second_save_validation.2 (handlePomodoroStart pomWork) true (by decide)
      (by decide) (by decide) (by decide)⟩

/-- C5: when `createSession` fails during a save, the accumulated timer
state (`pomodoroSeconds`, `totalWorkTime`, `currentCycle`, `isBreak`;
`stopwatchSeconds`) is left unchanged so the user may retry, and the
failure is reported with the save-failure message, which differs from
both validation messages. -/
theorem save_failure_preserves_state :
    (∀ p : PomState,
      (if p.showPomodoroCustom then p.pomodoroCustomCategory
        else p.pomodoroCategory) ≠ "" →
      (handlePomodoroSave true false p).state.pomodoroSeconds = p.pomodoroSeconds ∧
        (handlePomodoroSave true false p).state.totalWorkTime = p.totalWorkTime ∧
        (handlePomodoroSave true false p).state.currentCycle = p.currentCycle ∧
        (handlePomodoroSave true false p).state.isBreak = p.isBreak ∧
        (handlePomodoroSave true false p).state.pomodoroError =
          "Failed to save focus session. Please try again." ∧
        (handlePomodoroSave true false p).state.pomodoroError ≠
          "Timer must run for at least 1 second" ∧
        (handlePomodoroSave true false p).state.pomodoroError ≠
          "Please select or enter a category") ∧
    (∀ s : SwState, s.stopwatchSeconds ≠ 0 →
      (if s.showStopwatchCustom then s.stopwatchCustomCategory
        else s.stopwatchCategory) ≠ "" →
      (handleStopwatchSave true false s).state.stopwatchSeconds =
          s.stopwatchSeconds ∧
        (handleStopwatchSave true false s).state.stopwatchError =
          "Failed to save focus session. Please try again." ∧
        (handleStopwatchSave true false s).state.stopwatchError ≠
          "Timer must run for at least 1 second") := by
  constructor
  · intro p hcat
    have huser : ¬((!(true : Bool)) = true) := by simp
    simp only [handlePomodoroSave]
    rw [if_neg huser, if_neg hcat]
    refine ⟨by simp, by simp, by simp, by simp, by simp, by simp, by simp⟩
  · intro s h0 hcat
    have huser : ¬((!(true : Bool)) = true) := by simp
    simp only [handleStopwatchSave]
    rw [if_neg h0, if_neg huser, if_neg hcat]
    refine ⟨by simp, by simp, by simp⟩

theorem save_failure_preserves_state_witness :
    ((if pomWork.showPomodoroCustom then pomWork.pomodoroCustomCategory
        else pomWork.pomodoroCategory) ≠ "") ∧
      (handlePomodoroSave true false pomWork).state.totalWorkTime =
        pomWork.totalWorkTime ∧
      (handleStopwatchSave true false swOne).state.stopwatchSeconds =
        swOne.stopwatchSeconds :=
  ⟨by decide,
    (save_failure_preserves_state.1 pomWork (by decide)).2.1,
    (save_failure_preserves_state.2 swOne (by decide) (by decide)).1⟩

/-- C6: the goal form submits `createGoal` exactly when, with
`g = hours*3600 + minutes*60`, `0 < g ≤ 604800`, `hours ∈ [0, 168]` and
`minutes ∈ [0, 59]`; for any other input it sets a validation error and
does not call the store. -/
theorem goal_submit_range (category : String) (h m : Int) :
    ((goalsHandleSubmit true category h m true).storeCall ≠ none ↔
      (0 < h * 3600 + m * 60 ∧ h * 3600 + m * 60 ≤ 604800 ∧
        0 ≤ h ∧ h ≤ 168 ∧ 0 ≤ m ∧ m ≤ 59)) ∧
    ((goalsHandleSubmit true category h m true).storeCall ≠ none →
      (goalsHandleSubmit true category h m true).storeCall =
        some (category, h * 3600 + m * 60)) ∧
    ((goalsHandleSubmit true category h m true).storeCall = none →
      (goalsHandleSubmit true category h m true).error ≠ none) := by
  simp only [goalsHandleSubmit]
  split_ifs with hu h1 h2 h3 h4
  · simp at hu
  · refine ⟨?_, ?_, ?_⟩ <;> simp <;> omega
  · refine ⟨?_, ?_, ?_⟩ <;> simp <;> omega
  · refine ⟨?_, ?_, ?_⟩ <;> simp <;> omega
  · refine ⟨?_, ?_, ?_⟩ <;> simp <;> omega
  · refine ⟨?_, ?_, ?_⟩ <;> simp <;> omega

theorem goal_submit_range_witness :
    (goalsHandleSubmit true "Work" 1 0 true).storeCall ≠ none :=
  (goal_submit_range "Work" 1 0).1.mpr (by norm_num)

/-- C7: deleting a user cascades to exactly that user's `focus_information`,
`focus_goal_information` and `category_information` rows: after the
delete, a row is present in a dependent table precisely when it was
present before and belongs to a different user — so rows of other users
survive even when category names overlap, as the concrete two-user
scenario shows. -/
theorem user_delete_cascade (db : Db) (e : String) :
    (∀ u : String, u ∈ (deleteUserCascade e db).user_information ↔
      u ∈ db.user_information ∧ u ≠ e) ∧
    (∀ r : SessionRow, r ∈ (deleteUserCascade e db).focus_information ↔
      r ∈ db.focus_information ∧ r.email ≠ e) ∧
    (∀ r : GoalRow, r ∈ (deleteUserCascade e db).focus_goal_information ↔
      r ∈ db.focus_goal_information ∧ r.email ≠ e) ∧
    (∀ r : CategoryRow, r ∈ (deleteUserCascade e db).category_information ↔
      r ∈ db.category_information ∧ r.email ≠ e) ∧
    (deleteUserCascade "a"
        ⟨["a", "b"], [], [], [⟨"a", "Work"⟩, ⟨"b", "Work"⟩]⟩).category_information =
      [⟨"b", "Work"⟩] := by
  refine ⟨?_, ?_, ?_, ?_, by decide⟩ <;> intro r <;>
    simp [deleteUserCascade, List.mem_filter]

theorem user_delete_cascade_witness :
    (⟨"b", "Work"⟩ : CategoryRow) ∈
      (deleteUserCascade "a"
        ⟨["a", "b"], [], [], [⟨"a", "Work"⟩, ⟨"b", "Work"⟩]⟩).category_information :=
  ((user_delete_cascade ⟨["a", "b"], [], [], [⟨"a", "Work"⟩, ⟨"b", "Work"⟩]⟩
      "a").2.2.2.1 ⟨"b", "Work"⟩).mpr (by decide)

/-- C8: each interval firing while running advances elapsed time by exactly
one second (stopwatch `+1`; Pomodoro `-1` whenever its interval is
installed, i.e. running with positive countdown); a countdown hitting 0
runs cycle completion within the same scheduling step; and a paused
machine receives no ticks because the interval itself is uninstalled
while not running. -/
theorem tick_semantics (p : PomState) (s : SwState) (u ok : Bool) :
    (s.stopwatchRunning = true →
      stopwatchIntervalActive s = true ∧
        (stopwatchTick s).stopwatchSeconds = s.stopwatchSeconds + 1) ∧
    (s.stopwatchRunning = false →
      stopwatchIntervalActive s = false ∧ stopwatchTickStep s = s) ∧
    (pomodoroIntervalActive p = true →
      (pomodoroTick p).pomodoroSeconds = p.pomodoroSeconds - 1) ∧
    (p.pomodoroRunning = false →
      pomodoroIntervalActive p = false ∧ pomodoroTickStep u ok p = ⟨p, none⟩) ∧
    (p.pomodoroRunning = true → p.pomodoroSeconds = 1 → p.isBreak = false →
      p.currentCycle < getCycles p →
      (pomodoroTickStep u ok p).state.isBreak = true ∧
        (pomodoroTickStep u ok p).state.pomodoroSeconds =
          getBreakDuration p * 60 ∧
        (pomodoroTickStep u ok p).state.totalWorkTime =
          p.totalWorkTime + getWorkDuration p * 60) := by
  refine ⟨?_, ?_, ?_, ?_, ?_⟩
  · intro h
    exact ⟨h, rfl⟩
  · intro h
    refine ⟨h, ?_⟩
    simp [stopwatchTickStep, stopwatchIntervalActive, h]
  · intro h
    simp only [pomodoroIntervalActive, Bool.and_eq_true, decide_eq_true_eq] at h
    exact pomodoroTickBody_of_pos (by omega)
  · intro h
    constructor
    · simp [pomodoroIntervalActive, h]
    · simp [pomodoroTickStep, pomodoroIntervalActive, h]
  · intro hr h1 hb hc
    have hact : pomodoroIntervalActive p = true := by
      simp [pomodoroIntervalActive, hr, h1]
    simp only [getCycles] at hc
    simp [pomodoroTickStep, hact, pomodoroTick, pomodoroTickBody, h1, hr,
      handlePomodoroComplete, hb, hc, getCycles, getBreakDuration,
      getWorkDuration]

theorem tick_semantics_witness :
    pomodoroIntervalActive (handlePomodoroStart pomWork) = true ∧
      (pomodoroTick (handlePomodoroStart pomWork)).pomodoroSeconds =
        (handlePomodoroStart pomWork).pomodoroSeconds - 1 ∧
      stopwatchIntervalActive (handleStopwatchStart initSwState) = true ∧
      (stopwatchTick (handleStopwatchStart initSwState)).stopwatchSeconds =
        (handleStopwatchStart initSwState).stopwatchSeconds + 1 ∧
      (pomodoroTickStep true true
          { handlePomodoroStart pomWork with pomodoroSeconds := 1 }).state.isBreak =
        true :=
  ⟨by decide,
    (tick_semantics (handlePomodoroStart pomWork) initSwState true true).2.2.1
      (by decide),
    ((tick_semantics initPomState (handleStopwatchStart initSwState) true
        true).1 (by decide)).1,
    ((tick_semantics initPomState (handleStopwatchStart initSwState) true
        true).1 (by decide)).2,
    ((tick_semantics { handlePomodoroStart pomWork with pomodoroSeconds := 1 }
        initSwState true true).2.2.2.2 (by decide) (by decide) (by decide)
      (by decide)).1⟩

/-- C9 (amended): in every reachable state of the timer page the stopwatch
and the Pomodoro are never both running, and never both active in the
sense the start guards use (running, or displayed seconds positive);
starting either timer is enabled only while the other is inactive in that
sense.  The original claim's stronger reading — that the two timers can
never both hold accumulated time — fails: after a Pomodoro run whose
automatic save did not persist, `totalWorkTime` stays positive while
`pomodoroSeconds = 0`, and the stopwatch may then be started (see the
counterexample). -/
theorem single_active_timer {s : AppState} (h : Reachable s) :
    ¬(s.sw.stopwatchRunning = true ∧ s.pom.pomodoroRunning = true) ∧
      ¬(swActive s.sw = true ∧ pomActive s.pom = true) ∧
      (enabled s Ev.swStart = true → pomActive s.pom = false) ∧
      (enabled s Ev.pomStart = true → swActive s.sw = false) := by
  have hmux := (timerInv_reachable h).2.2.2
  refine ⟨?_, hmux, ?_, ?_⟩
  · intro hboth
    exact hmux ⟨swActive_of_running hboth.1, pomActive_of_running hboth.2⟩
  · intro he
    simp only [enabled, Bool.and_eq_true, Bool.not_eq_true'] at he
    exact he.2
  · intro he
    simp only [enabled, Bool.and_eq_true, Bool.not_eq_true'] at he
    exact he.2

theorem single_active_timer_witness :
    ¬(initAppState.sw.stopwatchRunning = true ∧
        initAppState.pom.pomodoroRunning = true) :=
  (single_active_timer Reachable.init).1

set_option maxRecDepth 8192 in
/-- C9 counterexample: a reachable state in which the stopwatch is running
with positive elapsed time while the Pomodoro still holds accumulated
work time (a 1-minute, 1-cycle run completed, its automatic save failed at
the store, leaving `totalWorkTime = 60` with the countdown at 0; the
stopwatch start guard then passes) — refuting the claim that the two
timers can never both hold accumulated time. -/
theorem both_timers_hold_time :
    ∃ s : AppState, Reachable s ∧ 0 < s.sw.stopwatchSeconds ∧
      s.sw.stopwatchRunning = true ∧ 0 < s.pom.totalWorkTime := by
  have r0 : Reachable initAppState := Reachable.init
  have r1 := Reachable.step initAppState (Ev.pomCategoryChange ["Work"] "Work")
    r0 (by decide)
  have r2 := Reachable.step _ (Ev.setWork (some 1)) r1 (by decide)
  have r3 := Reachable.step _ (Ev.setCycles (some 1)) r2 (by decide)
  have r4 := Reachable.step _ Ev.pomStart r3 (by decide)
  have r5 := reachable_pom_ticks 60 _ r4 (by decide) (by decide)
  have r6 := Reachable.step _ (Ev.pomComplete true false) r5 (by decide)
  have r7 := Reachable.step _ Ev.swStart r6 (by decide)
  have r8 := Reachable.step _ Ev.swTick r7 (by decide)
  exact ⟨_, r8, by decide, by decide, by decide⟩

/-- C10: `pomodoroSeconds` is never negative in any reachable state; the
interval callback clamps the countdown (returning 0 whenever the current
value is at most 1, hence never producing a negative value), and
start/reset assign only nonnegative values. -/
theorem pomodoro_seconds_nonneg {s : AppState} (h : Reachable s) :
    0 ≤ s.pom.pomodoroSeconds ∧
      (∀ x : Int, 0 ≤ pomodoroTickBody x ∧ (x ≤ 1 → pomodoroTickBody x = 0)) :=
  ⟨(timerInv_reachable h).2.1,
    fun x => ⟨pomodoroTickBody_nonneg x, fun hx => by
      unfold pomodoroTickBody
      rw [if_pos hx]⟩⟩

theorem pomodoro_seconds_nonneg_witness :
    0 ≤ initAppState.pom.pomodoroSeconds :=
  (pomodoro_seconds_nonneg Reachable.init).1
